import Mathlib

/-!
Shallow embedding of the Perso agent middleware (a TypeScript Cloudflare
Worker that relays chat turns between an inbound HTTP endpoint, a history
store, an LLM completion API and an n8n automation/messaging backend).

JS strings are modelled as `List Char` (`Str`).  Optional / possibly
`undefined` values are `Option`; JS falsiness of an optional string
(`undefined` or `''`) is the `falsy` predicate.  External effects (the
history store, the completion API, outbound `fetch` calls) are modelled as
oracles passed to the pipeline; the pipeline records every attempted store
insert and every attempted outbound POST so that theorems can speak about
them.  A JS thrown exception / rejected promise is modelled with `Except`
(`.error` = the exception propagates).

The embedding follows the richer pipeline variant of the repository
(`unnamed/part_000`); the second copy (`src/index.ts`) shares `trunc`,
`normPhone`, the tool wrappers and the validation logic verbatim.
-/

namespace Perso

/-- JS strings, at character granularity. -/
abbrev Str := List Char

/-- Coerce a Lean string literal into the model's string type. -/
def str (s : String) : Str := s.data

/-- JS falsiness of an optional string: `undefined` and `''` are falsy. -/
def falsy : Option Str → Bool
  | none => true
  | some s => s.isEmpty

/-- JS `a || b` where `a` is an optional string and `b` a string. -/
def jsOr (a : Option Str) (b : Str) : Str :=
  match a with
  | some s => if s.isEmpty then b else s
  | none => b

/-- `const trunc = (s?: string, n = 1024) => (s ?? '').slice(0, n);`
(the call sites pass `n` explicitly in this model). -/
def trunc (s : Option Str) (n : Nat) : Str := (s.getD []).take n

/-- `const trunc20 = (s?: string) => trunc(s, 20);` -/
def trunc20 (s : Option Str) : Str := trunc s 20

/-- `const trunc24 = (s?: string) => trunc(s, 24);` -/
def trunc24 (s : Option Str) : Str := trunc s 24

/-- `const trunc60 = (s?: string) => trunc(s, 60);` -/
def trunc60 (s : Option Str) : Str := trunc s 60

/-- `const trunc72 = (s?: string) => trunc(s, 72);` -/
def trunc72 (s : Option Str) : Str := trunc s 72

/-- `(to || '').replace(/\D/g, '')`: keep only the decimal digits. -/
def digitsOf (s : Str) : Str := s.filter Char.isDigit

/-- `normPhone` from the source: extract the digits; a digit-free input is
returned unchanged; otherwise prefix `+` (when the digits already
`startsWith('55')`, the country code) or `+55`. -/
def normPhone («to» : Str) : Str :=
  let digits := digitsOf «to»
  if digits.isEmpty then «to»
  else if (str "55").isPrefixOf digits then str "+" ++ digits
  else str "+55" ++ digits

/-- `(env.N8N_WEBHOOK_URL || '').replace(/\/+$/, '')`: strip every trailing
slash. -/
def stripTrailingSlashes (s : Str) : Str :=
  (s.reverse.dropWhile (fun c => c = '/')).reverse

/-- `getWebhookBase`: after stripping trailing slashes, append `/webhook`
unless the base already ends with it. -/
def getWebhookBase (n8nWebhookUrl : Str) : Str :=
  let base := stripTrailingSlashes n8nWebhookUrl
  if (str "/webhook").isSuffixOf base then base else base ++ str "/webhook"

/-- URL used by `postToSendWhatsappWebHook`. -/
def sendWhatsappUrl (root : Str) : Str :=
  getWebhookBase root ++ str "/tool/send-whatsapp"

/-- URL used by `executeTool` for a generic n8n tool. -/
def executeToolUrl (root : Str) (toolName : Str) : Str :=
  getWebhookBase root ++ str "/tool/" ++ toolName

/-- A button in the model-supplied arguments (`{ id, text }`); `text` may be
absent in the raw JSON. -/
structure Button where
  id : Str
  text : Option Str
deriving DecidableEq

/-- A list row in the model-supplied arguments (`{ id, title, description? }`). -/
structure Row where
  id : Str
  title : Option Str
  description : Option Str
deriving DecidableEq

/-- A list section in the model-supplied arguments (`{ title, rows }`);
`rows` may be absent in the raw JSON (`(s.rows || [])`). -/
structure Section where
  title : Option Str
  rows : Option (List Row)
deriving DecidableEq

/-- The fields of a parsed tool-call argument object
(`JSON.parse(toolCall.function.arguments || '{}')`) that the dispatcher
reads; any of them may be absent. -/
structure Args where
  «to» : Option Str
  text : Option Str
  reply_to : Option Str
  body : Option Str
  header : Option Str
  footer : Option Str
  button : Option Str
  buttons : Option (List Button)
  sections : Option (List Section)
deriving DecidableEq

/-- An argument object with every field absent (`JSON.parse('{}')`). -/
def emptyArgs : Args := ⟨none, none, none, none, none, none, none, none, none⟩

/-- Outbound button `{ type: 'reply', reply: { id, title } }`. -/
structure BtnOut where
  id : Str
  title : Str
deriving DecidableEq

/-- Outbound list row `{ id, title, description? }`. -/
structure RowOut where
  id : Str
  title : Str
  description : Option Str
deriving DecidableEq

/-- Outbound list section `{ title, rows }`. -/
structure SectionOut where
  title : Str
  rows : List RowOut
deriving DecidableEq

/-- The type-specific part of an outbound message body; the constructor
also fixes the `message_type` discriminator (`text` / `interactive`). -/
inductive OutboundPayload where
  | text (text : Str) (reply_to : Option Str)
  | button (header : Option Str) (body : Str) (footer : Option Str) (buttons : List BtnOut)
  | list (header : Option Str) (body : Str) (footer : Option Str) (button : Str)
      (sections : List SectionOut)
deriving DecidableEq

/-- An outbound `{ to, message_type, payload }` body posted to
`/tool/send-whatsapp`. -/
structure OutboundBody where
  «to» : Str
  payload : OutboundPayload
deriving DecidableEq

/-- `{ type: 'reply', reply: { id: b.id, title: trunc20(b.text) } }`. -/
def mkBtnOut (b : Button) : BtnOut := ⟨b.id, trunc20 b.text⟩

/-- One outbound list row: `{ id: r.id, title: trunc24(r.title),
description: r.description ? trunc72(r.description) : undefined }`. -/
def mkRowOut (r : Row) : RowOut :=
  ⟨r.id, trunc24 r.title,
    if falsy r.description then none else some (trunc72 r.description)⟩

/-- One outbound list section: `{ title: trunc24(s.title),
rows: (s.rows || []).slice(0, 10).map(...) }`. -/
def mkSectionOut (s : Section) : SectionOut :=
  ⟨trunc24 s.title, ((s.rows.getD []).take 10).map mkRowOut⟩

/-- Body built by `tool_send_whatsapp_text` (the dispatcher always supplies
`to` via `withTo`, so it is read with default `''`). -/
def tool_send_whatsapp_text (args : Args) : OutboundBody :=
  ⟨normPhone (args.«to».getD []), .text (trunc args.text 1024) args.reply_to⟩

/-- Body built by `tool_send_whatsapp_buttons`: header/footer included only
when truthy, body truncated to 1024, at most the first 3 buttons. -/
def tool_send_whatsapp_buttons (args : Args) : OutboundBody :=
  ⟨normPhone (args.«to».getD []),
    .button
      (if falsy args.header then none else some (trunc60 args.header))
      (trunc args.body 1024)
      (if falsy args.footer then none else some (trunc60 args.footer))
      (((args.buttons.getD []).take 3).map mkBtnOut)⟩

/-- Body built by `tool_send_whatsapp_list`: at most the first 10 sections,
each with at most its first 10 rows. -/
def tool_send_whatsapp_list (args : Args) : OutboundBody :=
  ⟨normPhone (args.«to».getD []),
    .list
      (if falsy args.header then none else some (trunc60 args.header))
      (trunc args.body 1024)
      (if falsy args.footer then none else some (trunc60 args.footer))
      (trunc20 args.button)
      (((args.sections.getD []).take 10).map mkSectionOut)⟩

/-- The buttons of an outbound interactive-button body. -/
def OutboundBody.buttonsOf : OutboundBody → List BtnOut
  | ⟨_, .button _ _ _ bs⟩ => bs
  | _ => []

/-- The sections of an outbound interactive-list body. -/
def OutboundBody.sectionsOf : OutboundBody → List SectionOut
  | ⟨_, .list _ _ _ _ ss⟩ => ss
  | _ => []

/-- `const to = args?.to || userPhone || ''; return { ...args, to };` -/
def withTo (userPhone : Option Str) (args : Args) : Args :=
  { args with «to» := some (jsOr args.«to» (jsOr userPhone [])) }

/-- Outcome of one outbound `fetch`: an HTTP response (status, statusText,
body text) or a rejected promise / thrown exception. -/
inductive FetchOutcome where
  | resp (status : Nat) (statusText : Str) (body : Str)
  | exn (msg : Str)
deriving DecidableEq

/-- Whether the outcome is an HTTP response (no exception thrown). -/
def FetchOutcome.isResp : FetchOutcome → Bool
  | .resp _ _ _ => true
  | .exn _ => false

/-- `res.ok`: status in the 2xx range. -/
def statusOk (status : Nat) : Bool := decide (200 ≤ status ∧ status < 300)

/-- `{ code, detail }` of a failed send. -/
structure SendError where
  code : Str
  detail : Str
deriving DecidableEq

/-- `SendResult` from the source: `{ ok, error? }` (`message_id` is never
set by this code). -/
structure SendResult where
  ok : Bool
  error : Option SendError
deriving DecidableEq

/-- Decimal rendering of a status code for `HTTP_${res.status}`. -/
def natStr (n : Nat) : Str := (toString n).data

/-- `postToSendWhatsappWebHook`, given the outcome of its `fetch`: a
non-ok status becomes a `SendResult` value; a thrown exception propagates
(`.error`).  (`res.text()` failures are already folded into the oracle's
body text via `.catch(() => '')`.) -/
def postToSendWhatsappWebHook (out : FetchOutcome) : Except Str SendResult :=
  match out with
  | .exn m => .error m
  | .resp status _ body =>
    if statusOk status then .ok ⟨true, none⟩
    else .ok ⟨false, some ⟨str "HTTP_" ++ natStr status, body⟩⟩

/-- `executeTool`: its own `try`/`catch` converts every failure (non-ok
status, thrown exception) into a descriptive string; an ok response is
returned as the (re-)stringified JSON body. -/
def executeTool (toolName : Str) (out : FetchOutcome) : Str :=
  match out with
  | .exn m => str "Erro interno na ferramenta: " ++ m
  | .resp status statusText body =>
    if statusOk status then body
    else str "Erro na ferramenta " ++ toolName ++ str ": " ++ statusText

/-- `JSON.stringify` of a `SendResult` (inner-string escaping elided). -/
def jsonQuote (s : Str) : Str := str "\"" ++ s ++ str "\""

/-- `JSON.stringify(r)` for the send wrappers' results. -/
def jsonOfSendResult (r : SendResult) : Str :=
  (if r.ok then str "\x7b\"ok\":true" else str "\x7b\"ok\":false") ++
    (match r.error with
     | none => str "\x7d"
     | some e =>
       str ",\"error\":\x7b\"code\":" ++ jsonQuote e.code ++
         str ",\"detail\":" ++ jsonQuote e.detail ++ str "\x7d\x7d")

/-- One tool call returned by the model, with its arguments already parsed
(`JSON.parse(toolCall.function.arguments || '{}')` assumed well-formed). -/
structure ToolCall where
  id : Str
  name : Str
  args : Args
deriving DecidableEq

/-- A recorded outbound POST attempt. -/
inductive Post where
  | sendWhatsapp (url : Str) (body : OutboundBody)
  | toolPost (url : Str) (toolName : Str) (args : Args)
deriving DecidableEq

/-- A `{ role: 'tool', tool_call_id, content }` message pushed after a
dispatch. -/
structure ToolMsg where
  tool_call_id : Str
  content : Str
deriving DecidableEq

/-- State threaded through the tool-dispatch loop: pushed tool messages,
attempted outbound POSTs, the `toolCallsExecuted` counter, and how many
`fetch`es have been consumed from the network oracle. -/
structure LoopState where
  toolMsgs : List ToolMsg
  posts : List Post
  executed : Nat
  fetches : Nat
deriving DecidableEq

/-- The loop state before any tool call is dispatched. -/
def initLoop : LoopState := ⟨[], [], 0, 0⟩

/-- Shared tail of the three `send_whatsapp_*` dispatch branches: the body
is POSTed (always attempted); a thrown exception propagates out of the
loop (`some e`) before any tool message is pushed or the counter bumped;
otherwise `JSON.stringify(r)` is pushed as the tool result. -/
def sendStep (root : Str) (net : Nat → FetchOutcome) (st : LoopState)
    (tcid : Str) (body : OutboundBody) : LoopState × Option Str :=
  let out := net st.fetches
  let st1 : LoopState :=
    { st with posts := st.posts ++ [.sendWhatsapp (sendWhatsappUrl root) body],
              fetches := st.fetches + 1 }
  match postToSendWhatsappWebHook out with
  | .error e => (st1, some e)
  | .ok r =>
    ({ st1 with toolMsgs := st1.toolMsgs ++ [⟨tcid, jsonOfSendResult r⟩],
                executed := st1.executed + 1 }, none)

/-- One iteration of the dispatch loop (the `if`/`else if` chain over
`functionName`); returns the new state and, for the messaging branches
only, a possibly-propagating exception. -/
def stepTool (root : Str) (net : Nat → FetchOutcome) (userPhone : Option Str)
    (st : LoopState) (tc : ToolCall) : LoopState × Option Str :=
  if tc.name = str "buscar_programas_weburn" then
    let result := executeTool (str "buscar-programas") (net st.fetches)
    ({ st with
        toolMsgs := st.toolMsgs ++ [⟨tc.id, result⟩],
        posts := st.posts ++
          [.toolPost (executeToolUrl root (str "buscar-programas"))
            (str "buscar-programas") tc.args],
        executed := st.executed + 1,
        fetches := st.fetches + 1 }, none)
  else if tc.name = str "send_whatsapp" ∨ tc.name = str "send_whatsapp_text" then
    sendStep root net st tc.id (tool_send_whatsapp_text (withTo userPhone tc.args))
  else if tc.name = str "send_whatsapp_buttons" then
    sendStep root net st tc.id (tool_send_whatsapp_buttons (withTo userPhone tc.args))
  else if tc.name = str "send_whatsapp_list" then
    sendStep root net st tc.id (tool_send_whatsapp_list (withTo userPhone tc.args))
  else
    ({ st with toolMsgs := st.toolMsgs ++ [⟨tc.id, str "Tool não implementada: " ++ tc.name⟩],
               executed := st.executed + 1 }, none)

/-- The dispatch loop over the model's tool calls, in order; an uncaught
exception aborts the remaining iterations and is reported as `some e`. -/
def runToolLoop (root : Str) (net : Nat → FetchOutcome) (userPhone : Option Str) :
    List ToolCall → LoopState → LoopState × Option Str
  | [], st => (st, none)
  | tc :: rest, st =>
    match stepTool root net userPhone st tc with
    | (st1, none) => runToolLoop root net userPhone rest st1
    | (st1, some e) => (st1, some e)

/-- Whether a tool name selects one of the messaging (`send_whatsapp*`)
dispatch branches. -/
def isSendName (n : Str) : Bool :=
  n == str "send_whatsapp" || n == str "send_whatsapp_text" ||
    n == str "send_whatsapp_buttons" || n == str "send_whatsapp_list"

/-- The parsed request body; each field may be absent from the JSON. -/
structure ReqBody where
  conversationId : Option Str
  newMessage : Option Str
  userPhone : Option Str
  platform : Option Str

/-- One row of the `conversation_history` store (as returned by the
`get_conversation_history` RPC). -/
structure ConvMsg where
  conversation_id : Str
  role : Str
  content : Str

/-- The assistant message of one completion: its content (possibly null)
and its tool calls (`[]` covers both absent and empty). -/
structure AssistantMsg where
  content : Option Str
  tool_calls : List ToolCall

/-- Outcome of one completion-API call: a message, or a thrown error. -/
inductive CompletionOutcome where
  | ok (msg : AssistantMsg)
  | exn (e : Str)

/-- Oracles for the external collaborators of one request: the two store
inserts, the history RPC, the two completion calls, and the network
outcomes of the tool-dispatch fetches. -/
structure Oracles where
  insertUserErr : Option Str
  history : Except Str (List ConvMsg)
  first : CompletionOutcome
  net : Nat → FetchOutcome
  final : CompletionOutcome
  insertAssistantErr : Option Str

/-- A row the pipeline attempts to insert into `conversation_history`. -/
structure Insert where
  conversation_id : Str
  role : Str
  content : Str
deriving DecidableEq

/-- The metadata block of the success envelope. -/
structure Meta where
  messagesInHistory : Nat
  toolCallsExecuted : Nat
  platform : Str
  userPhone : Option Str
deriving DecidableEq

/-- The JSON success envelope. -/
structure SuccessBody where
  success : Bool
  conversationId : Str
  response : Str
  metadata : Meta
deriving DecidableEq

/-- A response body: plain text (error paths) or the JSON envelope. -/
inductive RespBody where
  | text (s : Str)
  | json (b : SuccessBody)
deriving DecidableEq

/-- What one invocation of the worker's `fetch` handler produced: the HTTP
status and body, plus the store inserts and outbound POSTs it attempted. -/
structure PipelineResult where
  status : Nat
  body : RespBody
  inserts : List Insert
  posts : List Post

/-- The fixed fallback reply substituted when a completion call throws. -/
def fallbackMsg : Str :=
  str "Desculpe, ocorreu um erro interno. Tente novamente em alguns instantes."

/-- The reply substituted for a null/empty completion content. -/
def defaultReply : Str := str "Desculpe, não consegui gerar uma resposta."

/-- The worker's `fetch` handler: method check, body parse (`.error` =
`request.json()` threw), validation, user-turn insert, history fetch,
completion + tool loop + finalizing completion (all inside one `try`
whose `catch` substitutes `fallbackMsg`), assistant-turn insert (failure
logged only), and the success envelope (HTTP 200). -/
def handleFetch (root : Str) (o : Oracles) (method : Str)
    (parsed : Except Str ReqBody) : PipelineResult :=
  if method ≠ str "POST" then ⟨405, .text (str "Método não permitido"), [], []⟩
  else
    match parsed with
    | .error e => ⟨500, .text (str "Erro interno no agente: " ++ e), [], []⟩
    | .ok req =>
      if falsy req.conversationId || falsy req.newMessage then
        ⟨400, .text (str "Os campos \"conversationId\" e \"newMessage\" são obrigatórios."),
          [], []⟩
      else
        let cid := req.conversationId.getD []
        let userIns : Insert := ⟨cid, str "user", req.newMessage.getD []⟩
        match o.insertUserErr with
        | some e =>
          ⟨500, .text (str "Erro interno no agente: Erro ao salvar mensagem do usuário: " ++ e),
            [userIns], []⟩
        | none =>
          match o.history with
          | .error e =>
            ⟨500, .text (str "Erro interno no agente: Erro ao buscar histórico: " ++ e),
              [userIns], []⟩
          | .ok history =>
            let r :=
              match o.first with
              | .exn _ => (fallbackMsg, initLoop)
              | .ok am =>
                if am.tool_calls.isEmpty then (jsOr am.content defaultReply, initLoop)
                else
                  match runToolLoop root o.net req.userPhone am.tool_calls initLoop with
                  | (st, some _) => (fallbackMsg, st)
                  | (st, none) =>
                    match o.final with
                    | .exn _ => (fallbackMsg, st)
                    | .ok fm => (jsOr fm.content defaultReply, st)
            ⟨200,
              .json ⟨true, cid, r.1,
                ⟨history.length, r.2.executed, jsOr req.platform (str "unknown"),
                  if falsy req.userPhone then none else req.userPhone⟩⟩,
              [userIns, ⟨cid, str "assistant", r.1⟩],
              r.2.posts⟩

/-! ## Helper lemmas -/

theorem digitsOf_append (a b : Str) : digitsOf (a ++ b) = digitsOf a ++ digitsOf b := by
  simp [digitsOf, List.filter_append]

theorem digitsOf_idem (x : Str) : digitsOf (digitsOf x) = digitsOf x := by
  simp [digitsOf, List.filter_filter]

theorem normPhone_of_isEmpty (x : Str) (h : (digitsOf x).isEmpty = true) :
    normPhone x = x := by
  simp [normPhone, h]

theorem normPhone_of_prefix55 (x : Str) (h0 : (digitsOf x).isEmpty = false)
    (h55 : (str "55").isPrefixOf (digitsOf x) = true) :
    normPhone x = str "+" ++ digitsOf x := by
  simp [normPhone, h0, h55]

theorem normPhone_of_not_prefix55 (x : Str) (h0 : (digitsOf x).isEmpty = false)
    (h55 : (str "55").isPrefixOf (digitsOf x) = false) :
    normPhone x = str "+55" ++ digitsOf x := by
  simp [normPhone, h0, h55]

theorem digitsOf_plus (x : Str) : digitsOf (str "+" ++ digitsOf x) = digitsOf x := by
  rw [digitsOf_append, digitsOf_idem]
  have h : digitsOf (str "+") = [] := by decide
  rw [h, List.nil_append]

theorem digitsOf_plus55 (x : Str) :
    digitsOf (str "+55" ++ digitsOf x) = '5' :: '5' :: digitsOf x := by
  rw [digitsOf_append, digitsOf_idem]
  have h : digitsOf (str "+55") = ['5', '5'] := by decide
  rw [h]
  rfl

theorem normPhone_idem (x : Str) : normPhone (normPhone x) = normPhone x := by
  rcases h0 : (digitsOf x).isEmpty with _ | _
  · rcases h55 : (str "55").isPrefixOf (digitsOf x) with _ | _
    · have hx : normPhone x = str "+55" ++ digitsOf x := normPhone_of_not_prefix55 x h0 h55
      have hd : digitsOf (normPhone x) = '5' :: '5' :: digitsOf x := by
        rw [hx, digitsOf_plus55]
      have h0' : (digitsOf (normPhone x)).isEmpty = false := by rw [hd]; rfl
      have h55' : (str "55").isPrefixOf (digitsOf (normPhone x)) = true := by
        rw [hd]
        exact List.isPrefixOf_iff_prefix.mpr ⟨digitsOf x, rfl⟩
      rw [normPhone_of_prefix55 (normPhone x) h0' h55', hd, hx]
      rfl
    · have hx : normPhone x = str "+" ++ digitsOf x := normPhone_of_prefix55 x h0 h55
      have hd : digitsOf (normPhone x) = digitsOf x := by rw [hx, digitsOf_plus]
      have h0' : (digitsOf (normPhone x)).isEmpty = false := by rw [hd]; exact h0
      have h55' : (str "55").isPrefixOf (digitsOf (normPhone x)) = true := by
        rw [hd]; exact h55
      rw [normPhone_of_prefix55 (normPhone x) h0' h55', hd, hx]
  · have hx : normPhone x = x := normPhone_of_isEmpty x h0
    rw [hx]
    exact hx

/-! ## Claim theorems -/

/-- C5 counterexample: the digit-free string `"ab"` falls under the claim's
scope (its digit string, being empty, does not start with `55`), yet
`normPhone` returns it unchanged: the country code is not prepended and no
leading `+` is applied. -/
theorem C5_counterexample :
    ¬ (str "55" <+: digitsOf (str "ab")) ∧
    normPhone (str "ab") = str "ab" ∧
    normPhone (str "ab") ≠ str "+55" ++ digitsOf (str "ab") ∧
    (normPhone (str "ab")).head? ≠ some '+' := by
  decide

/-- C5 (amended): `normPhone` is idempotent and total on all strings; for
every string that contains at least one digit, if its digit string does
not start with the country code `55` then the result is `+55` followed by
the digits, and if the digit string does start with `55` then only a
leading `+` is applied to the digits. -/
theorem C5_normPhone_idempotent_total :
    (∀ x : Str, normPhone (normPhone x) = normPhone x) ∧
    (∀ x : Str, digitsOf x ≠ [] → ¬ (str "55" <+: digitsOf x) →
      normPhone x = str "+55" ++ digitsOf x) ∧
    (∀ x : Str, str "55" <+: digitsOf x → normPhone x = str "+" ++ digitsOf x) := by
  refine ⟨normPhone_idem, ?_, ?_⟩
  · intro x hne h55
    have h0 : (digitsOf x).isEmpty = false := by
      simpa [List.isEmpty_iff] using hne
    have hb : (str "55").isPrefixOf (digitsOf x) = false := by
      rcases hb : (str "55").isPrefixOf (digitsOf x) with _ | _
      · rfl
      · exact absurd (List.isPrefixOf_iff_prefix.mp hb) h55
    exact normPhone_of_not_prefix55 x h0 hb
  · intro x h55
    obtain ⟨t, ht⟩ := h55
    have h0 : (digitsOf x).isEmpty = false := by
      rw [← ht]; rfl
    exact normPhone_of_prefix55 x h0 (List.isPrefixOf_iff_prefix.mpr ⟨t, ht⟩)

/-- C5 witness: the amended statement applied at `"31 9"` (digits not
starting with `55`) and `"+55 11 9"` (digits starting with `55`). -/
theorem C5_witness :
    normPhone (normPhone (str "31 9")) = normPhone (str "31 9") ∧
    normPhone (str "31 9") = str "+55" ++ digitsOf (str "31 9") ∧
    normPhone (str "+55 11 9") = str "+" ++ digitsOf (str "+55 11 9") :=
  ⟨C5_normPhone_idempotent_total.1 (str "31 9"),
   C5_normPhone_idempotent_total.2.1 (str "31 9") (by decide) (by decide),
   C5_normPhone_idempotent_total.2.2 (str "+55 11 9") (by decide)⟩

/-- C6: every truncation `trunc · n` is length-bounding (the result never
exceeds `n` characters), idempotent, and the identity on strings of length
at most `n`; the named variants `trunc20`/`trunc24`/`trunc60`/`trunc72`
and the 1024-char default are instances of the generic bound. -/
theorem C6_trunc_idempotent_bounding :
    (∀ (n : Nat) (s : Str), (trunc (some s) n).length ≤ n) ∧
    (∀ (n : Nat) (s : Str), trunc (some (trunc (some s) n)) n = trunc (some s) n) ∧
    (∀ (n : Nat) (s : Str), s.length ≤ n → trunc (some s) n = s) ∧
    (∀ s : Str, trunc20 (some s) = trunc (some s) 20 ∧ trunc24 (some s) = trunc (some s) 24 ∧
      trunc60 (some s) = trunc (some s) 60 ∧ trunc72 (some s) = trunc (some s) 72) := by
  refine ⟨?_, ?_, ?_, ?_⟩
  · intro n s
    simp [trunc]
  · intro n s
    simp [trunc, List.take_take]
  · intro n s h
    simpa [trunc] using List.take_of_length_le h
  · intro s
    exact ⟨rfl, rfl, rfl, rfl⟩

/-- C6 witness: the identity case of the bound at a concrete short string. -/
theorem C6_witness : trunc (some (str "oi")) 20 = str "oi" :=
  C6_trunc_idempotent_bounding.2.2.1 20 (str "oi") (by decide)

/-- C9: a string with no digit characters (the empty string included) is
returned unchanged by `normPhone`: no `+` and no country code is added. -/
theorem C9_normPhone_digit_free (x : Str) (h : ∀ c ∈ x, c.isDigit = false) :
    normPhone x = x := by
  have hd : digitsOf x = [] := by
    simp only [digitsOf, List.filter_eq_nil_iff]
    intro a ha
    simp [h a ha]
  apply normPhone_of_isEmpty
  rw [hd]
  rfl

/-- C9 witness: `normPhone` leaves `""` and `"abc!"` unchanged. -/
theorem C9_witness :
    normPhone (str "") = str "" ∧ normPhone (str "abc!") = str "abc!" :=
  ⟨C9_normPhone_digit_free (str "") (by decide),
   C9_normPhone_digit_free (str "abc!") (by decide)⟩

/-- C7: the interactive button payload keeps exactly the first min(3, len)
buttons (position `i` holds the image of argument button `i` for `i < 3`,
and nothing beyond), and the interactive list payload keeps at most the
first 10 sections, each keeping at most its first 10 rows; extra elements
are silently dropped, never rejected (the builders are total). -/
theorem C7_payload_caps (args : Args) :
    (tool_send_whatsapp_buttons args).buttonsOf.length ≤ 3 ∧
    (∀ i : Nat, (tool_send_whatsapp_buttons args).buttonsOf[i]? =
      if i < 3 then ((args.buttons.getD [])[i]?).map mkBtnOut else none) ∧
    (tool_send_whatsapp_list args).sectionsOf.length ≤ 10 ∧
    (∀ i : Nat, (tool_send_whatsapp_list args).sectionsOf[i]? =
      if i < 10 then ((args.sections.getD [])[i]?).map mkSectionOut else none) ∧
    (∀ sec ∈ (tool_send_whatsapp_list args).sectionsOf, sec.rows.length ≤ 10) := by
  have hb : (tool_send_whatsapp_buttons args).buttonsOf =
      ((args.buttons.getD []).take 3).map mkBtnOut := rfl
  have hs : (tool_send_whatsapp_list args).sectionsOf =
      ((args.sections.getD []).take 10).map mkSectionOut := rfl
  refine ⟨?_, ?_, ?_, ?_, ?_⟩
  · rw [hb]
    simp only [List.length_map, List.length_take]
    omega
  · intro i
    rw [hb]
    by_cases h : i < 3
    · simp [List.getElem?_map, List.getElem?_take, h]
    · rw [if_neg h]
      apply List.getElem?_eq_none
      simp only [List.length_map, List.length_take]
      omega
  · rw [hs]
    simp only [List.length_map, List.length_take]
    omega
  · intro i
    rw [hs]
    by_cases h : i < 10
    · simp [List.getElem?_map, List.getElem?_take, h]
    · rw [if_neg h]
      apply List.getElem?_eq_none
      simp only [List.length_map, List.length_take]
      omega
  · intro sec hsec
    rw [hs] at hsec
    obtain ⟨s, _, rfl⟩ := List.mem_map.mp hsec
    simp only [mkSectionOut, List.length_map, List.length_take]
    omega

/-- C7 witness: the rows bound applied to the one section of a concrete
list payload. -/
theorem C7_witness :
    (mkSectionOut ⟨some (str "s"), some [⟨str "r", some (str "t"), none⟩]⟩).rows.length ≤ 10 :=
  (C7_payload_caps
      ⟨none, none, none, none, none, none, none,
        some [⟨str "b1", some (str "B")⟩],
        some [⟨some (str "s"), some [⟨str "r", some (str "t"), none⟩]⟩]⟩).2.2.2.2
    _ (by decide)

/-- C8: for every configured webhook root the derived base URL ends in
`/webhook` — trailing slashes are stripped and `/webhook` is appended
exactly when the stripped root does not already end with it — and both
outbound call shapes (the dedicated send-whatsapp webhook and the generic
`/tool/<name>` endpoint) extend exactly that base. -/
theorem C8_webhook_base (root : Str) :
    (str "/webhook").isSuffixOf (getWebhookBase root) = true ∧
    ((str "/webhook").isSuffixOf (stripTrailingSlashes root) = true →
      getWebhookBase root = stripTrailingSlashes root) ∧
    ((str "/webhook").isSuffixOf (stripTrailingSlashes root) = false →
      getWebhookBase root = stripTrailingSlashes root ++ str "/webhook") ∧
    sendWhatsappUrl root = getWebhookBase root ++ str "/tool/send-whatsapp" ∧
    (∀ toolName : Str,
      executeToolUrl root toolName = getWebhookBase root ++ str "/tool/" ++ toolName) := by
  refine ⟨?_, ?_, ?_, rfl, fun _ => rfl⟩
  · rcases h : (str "/webhook").isSuffixOf (stripTrailingSlashes root) with _ | _
    · have hx : getWebhookBase root = stripTrailingSlashes root ++ str "/webhook" := by
        simp [getWebhookBase, h]
      rw [hx]
      exact List.isSuffixOf_iff_suffix.mpr (List.suffix_append _ _)
    · have hx : getWebhookBase root = stripTrailingSlashes root := by
        simp [getWebhookBase, h]
      rw [hx]
      exact h
  · intro h
    simp [getWebhookBase, h]
  · intro h
    simp [getWebhookBase, h]

theorem sendStep_posts (root : Str) (net : Nat → FetchOutcome) (st : LoopState)
    (tcid : Str) (body : OutboundBody) :
    (sendStep root net st tcid body).1.posts =
      st.posts ++ [Post.sendWhatsapp (sendWhatsappUrl root) body] := by
  cases h : postToSendWhatsappWebHook (net st.fetches) <;> simp [sendStep, h]

theorem stepTool_send_exists (root : Str) (net : Nat → FetchOutcome)
    (up : Option Str) (st : LoopState) (tc : ToolCall)
    (hname : isSendName tc.name = true) :
    ∃ body : OutboundBody,
      stepTool root net up st tc = sendStep root net st tc.id body ∧
      body.«to» = normPhone ((withTo up tc.args).«to».getD []) := by
  obtain ⟨tcid, tcname, tcargs⟩ := tc
  simp only [isSendName, Bool.or_eq_true, beq_iff_eq] at hname
  rcases hname with ((h | h) | h) | h <;> subst h
  · refine ⟨tool_send_whatsapp_text (withTo up tcargs), ?_, rfl⟩
    simp only [stepTool]
    rw [if_neg (by decide)]
    simp
  · refine ⟨tool_send_whatsapp_text (withTo up tcargs), ?_, rfl⟩
    simp only [stepTool]
    rw [if_neg (by decide)]
    simp
  · refine ⟨tool_send_whatsapp_buttons (withTo up tcargs), ?_, rfl⟩
    simp only [stepTool]
    rw [if_neg (by decide), if_neg (by decide)]
    simp
  · refine ⟨tool_send_whatsapp_list (withTo up tcargs), ?_, rfl⟩
    simp only [stepTool]
    rw [if_neg (by decide), if_neg (by decide), if_neg (by decide)]
    simp

theorem stepTool_resp (root : Str) (net : Nat → FetchOutcome) (up : Option Str)
    (st : LoopState) (tc : ToolCall) (h : (net st.fetches).isResp = true) :
    (stepTool root net up st tc).2 = none ∧
    (stepTool root net up st tc).1.executed = st.executed + 1 ∧
    (stepTool root net up st tc).1.toolMsgs.length = st.toolMsgs.length + 1 := by
  obtain ⟨status, stext, rbody, hnet⟩ : ∃ a b c, net st.fetches = .resp a b c := by
    cases hn : net st.fetches with
    | resp a b c => exact ⟨a, b, c, rfl⟩
    | exn m => rw [hn] at h; exact absurd h (by simp [FetchOutcome.isResp])
  unfold stepTool
  split_ifs with h1 h2 h3 h4
  · simp
  all_goals
    by_cases hok : statusOk status = true <;>
      simp [sendStep, postToSendWhatsappWebHook, hnet, hok]

theorem runToolLoop_resp (root : Str) (net : Nat → FetchOutcome) (up : Option Str)
    (h : ∀ n, (net n).isResp = true) :
    ∀ (tcs : List ToolCall) (st : LoopState),
      (runToolLoop root net up tcs st).2 = none ∧
      (runToolLoop root net up tcs st).1.executed = st.executed + tcs.length ∧
      (runToolLoop root net up tcs st).1.toolMsgs.length = st.toolMsgs.length + tcs.length := by
  intro tcs
  induction tcs with
  | nil => intro st; simp [runToolLoop]
  | cons tc rest ih =>
    intro st
    have hs := stepTool_resp root net up st tc (h st.fetches)
    rcases hstep : stepTool root net up st tc with ⟨st1, ab⟩
    rw [hstep] at hs
    obtain ⟨hab, hex, hlen⟩ := hs
    simp only at hab hex hlen
    subst hab
    simp only [runToolLoop, hstep]
    refine ⟨(ih st1).1, ?_, ?_⟩
    · rw [(ih st1).2.1, hex, List.length_cons]
      omega
    · rw [(ih st1).2.2, hlen, List.length_cons]
      omega

/-- C8 witness: a root with a trailing slash gets `/webhook` appended; a
root already ending in `/webhook` is only slash-stripped. -/
theorem C8_witness :
    (str "/webhook").isSuffixOf (getWebhookBase (str "https://h/")) = true ∧
    getWebhookBase (str "https://h/") = stripTrailingSlashes (str "https://h/") ++ str "/webhook" ∧
    getWebhookBase (str "https://h/webhook") = stripTrailingSlashes (str "https://h/webhook") :=
  ⟨(C8_webhook_base (str "https://h/")).1,
   (C8_webhook_base (str "https://h/")).2.2.1 (by decide),
   (C8_webhook_base (str "https://h/webhook")).2.1 (by decide)⟩

/-- C1 counterexample: with two messaging tool calls and a network oracle
whose first fetch throws, the exception is not converted into a per-call
string (no tool message is pushed), and the second sibling call is never
dispatched — only the first POST was attempted and the executed counter
stays 0 — refuting the claim that a thrown exception is caught for that
call alone and the remaining tool calls still dispatched. -/
theorem C1_counterexample :
    (runToolLoop (str "") (fun _ => FetchOutcome.exn (str "boom")) none
        [⟨str "1", str "send_whatsapp_text", emptyArgs⟩,
         ⟨str "2", str "send_whatsapp_text", emptyArgs⟩] initLoop).2 = some (str "boom") ∧
    (runToolLoop (str "") (fun _ => FetchOutcome.exn (str "boom")) none
        [⟨str "1", str "send_whatsapp_text", emptyArgs⟩,
         ⟨str "2", str "send_whatsapp_text", emptyArgs⟩] initLoop).1.toolMsgs = [] ∧
    (runToolLoop (str "") (fun _ => FetchOutcome.exn (str "boom")) none
        [⟨str "1", str "send_whatsapp_text", emptyArgs⟩,
         ⟨str "2", str "send_whatsapp_text", emptyArgs⟩] initLoop).1.executed = 0 ∧
    (runToolLoop (str "") (fun _ => FetchOutcome.exn (str "boom")) none
        [⟨str "1", str "send_whatsapp_text", emptyArgs⟩,
         ⟨str "2", str "send_whatsapp_text", emptyArgs⟩] initLoop).1.posts.length = 1 := by
  decide

/-- C1 (amended): per-call failure isolation holds for HTTP failures but
not for thrown exceptions on the messaging path. (1) When every fetch
returns an HTTP response — any status, success or not — the loop never
aborts, and every tool call is dispatched and appends exactly one string
result to the message list. (2) A dispatch whose name is not a messaging
tool (the generic automation tool, with its own try/catch, and unknown
names, which perform no call) never propagates an exception. (3) A
messaging dispatch whose fetch returns an HTTP response — again any
status — propagates nothing and appends the stringified `SendResult` for
that call. A thrown exception in a messaging dispatch, however, escapes
the loop (see the counterexample). -/
theorem C1_per_call_failure_handling :
    (∀ (root : Str) (net : Nat → FetchOutcome) (up : Option Str)
        (tcs : List ToolCall) (st : LoopState),
      (∀ n, (net n).isResp = true) →
      (runToolLoop root net up tcs st).2 = none ∧
      (runToolLoop root net up tcs st).1.executed = st.executed + tcs.length ∧
      (runToolLoop root net up tcs st).1.toolMsgs.length = st.toolMsgs.length + tcs.length) ∧
    (∀ (root : Str) (net : Nat → FetchOutcome) (up : Option Str)
        (st : LoopState) (tc : ToolCall),
      isSendName tc.name = false → (stepTool root net up st tc).2 = none) ∧
    (∀ (root : Str) (net : Nat → FetchOutcome) (up : Option Str)
        (st : LoopState) (tc : ToolCall),
      isSendName tc.name = true → (net st.fetches).isResp = true →
      (stepTool root net up st tc).2 = none ∧
      ∃ r : SendResult, (stepTool root net up st tc).1.toolMsgs =
        st.toolMsgs ++ [⟨tc.id, jsonOfSendResult r⟩]) := by
  refine ⟨fun root net up tcs st h => runToolLoop_resp root net up h tcs st, ?_, ?_⟩
  · intro root net up st tc hname
    obtain ⟨tcid, tcname, tcargs⟩ := tc
    simp only [isSendName, Bool.or_eq_false_iff, beq_eq_false_iff_ne, ne_eq] at hname
    obtain ⟨⟨⟨hn1, hn2⟩, hn3⟩, hn4⟩ := hname
    unfold stepTool
    dsimp only
    by_cases h1 : tcname = str "buscar_programas_weburn"
    · rw [if_pos h1]
    · rw [if_neg h1, if_neg (not_or.mpr ⟨hn1, hn2⟩), if_neg hn3, if_neg hn4]
  · intro root net up st tc hname hresp
    obtain ⟨status, stext, rbody, hnet⟩ : ∃ a b c, net st.fetches = .resp a b c := by
      cases hn : net st.fetches with
      | resp a b c => exact ⟨a, b, c, rfl⟩
      | exn m => rw [hn] at hresp; exact absurd hresp (by simp [FetchOutcome.isResp])
    obtain ⟨body, hstep, _⟩ := stepTool_send_exists root net up st tc hname
    rw [hstep]
    by_cases hok : statusOk status = true <;>
      simp [sendStep, postToSendWhatsappWebHook, hnet, hok]

/-- C1 witness: both non-exception clauses exercised — a loop over a
messaging call and an automation call against a 500-returning backend
completes with both calls dispatched, and a non-send dispatch never
propagates. -/
theorem C1_witness :
    ((runToolLoop (str "r") (fun _ => FetchOutcome.resp 500 (str "ISE") (str "err")) none
        [⟨str "1", str "send_whatsapp_text", emptyArgs⟩,
         ⟨str "2", str "buscar_programas_weburn", emptyArgs⟩] initLoop).2 = none ∧
      (runToolLoop (str "r") (fun _ => FetchOutcome.resp 500 (str "ISE") (str "err")) none
        [⟨str "1", str "send_whatsapp_text", emptyArgs⟩,
         ⟨str "2", str "buscar_programas_weburn", emptyArgs⟩] initLoop).1.executed = 2) ∧
    (stepTool (str "r") (fun _ => FetchOutcome.exn (str "boom")) none initLoop
      ⟨str "2", str "buscar_programas_weburn", emptyArgs⟩).2 = none := by
  refine ⟨⟨?_, ?_⟩, ?_⟩
  · exact (C1_per_call_failure_handling.1 (str "r")
      (fun _ => FetchOutcome.resp 500 (str "ISE") (str "err")) none
      [⟨str "1", str "send_whatsapp_text", emptyArgs⟩,
       ⟨str "2", str "buscar_programas_weburn", emptyArgs⟩] initLoop (fun _ => rfl)).1
  · simpa using (C1_per_call_failure_handling.1 (str "r")
      (fun _ => FetchOutcome.resp 500 (str "ISE") (str "err")) none
      [⟨str "1", str "send_whatsapp_text", emptyArgs⟩,
       ⟨str "2", str "buscar_programas_weburn", emptyArgs⟩] initLoop (fun _ => rfl)).2.1
  · exact C1_per_call_failure_handling.2.1 _ _ _ _ _ (by decide)

/-- C2: a messaging tool call whose arguments omit `to`, on a request that
supplied a (non-empty) `user_phone`, is dispatched with the normalized
`user_phone` as destination: the outbound body is still posted and its
`to` field is `normPhone user_phone`. -/
theorem C2_user_phone_substitution (root : Str) (net : Nat → FetchOutcome)
    (p : Str) (st : LoopState) (tc : ToolCall)
    (hname : isSendName tc.name = true)
    (hto : tc.args.«to» = none) (hp : p ≠ []) :
    ∃ body : OutboundBody,
      (stepTool root net (some p) st tc).1.posts =
        st.posts ++ [Post.sendWhatsapp (sendWhatsappUrl root) body] ∧
      body.«to» = normPhone p := by
  obtain ⟨body, hstep, hbto⟩ := stepTool_send_exists root net (some p) st tc hname
  have hpe : p.isEmpty = false := by
    cases p with
    | nil => exact absurd rfl hp
    | cons a t => rfl
  have hw : (withTo (some p) tc.args).«to» = some p := by
    simp [withTo, jsOr, hto, hpe]
  refine ⟨body, ?_, ?_⟩
  · rw [hstep]
    exact sendStep_posts root net st tc.id body
  · rw [hbto, hw]
    rfl

/-- C2 witness: a `send_whatsapp_text` call with no `to`, on a request
carrying `user_phone = "11 9"`, posts a body addressed to
`normPhone "11 9"`. -/
theorem C2_witness :
    ∃ body : OutboundBody,
      (stepTool (str "r") (fun _ => FetchOutcome.resp 200 (str "OK") (str ""))
          (some (str "11 9")) initLoop
          ⟨str "1", str "send_whatsapp_text", emptyArgs⟩).1.posts =
        initLoop.posts ++ [Post.sendWhatsapp (sendWhatsappUrl (str "r")) body] ∧
      body.«to» = normPhone (str "11 9") :=
  C2_user_phone_substitution (str "r") (fun _ => FetchOutcome.resp 200 (str "OK") (str ""))
    (str "11 9") initLoop ⟨str "1", str "send_whatsapp_text", emptyArgs⟩
    (by decide) rfl (by decide)

/-- C10: when both the call's `to` argument and the request's `user_phone`
are absent or empty, the dispatcher still builds and posts the outbound
body, addressed to the empty string (`normPhone '' = ''`) — the send is
neither skipped nor turned into an error by the dispatcher. -/
theorem C10_empty_destination (root : Str) (net : Nat → FetchOutcome)
    (up : Option Str) (st : LoopState) (tc : ToolCall)
    (hname : isSendName tc.name = true)
    (hto : falsy tc.args.«to» = true) (hup : falsy up = true) :
    normPhone [] = [] ∧
    ∃ body : OutboundBody,
      (stepTool root net up st tc).1.posts =
        st.posts ++ [Post.sendWhatsapp (sendWhatsappUrl root) body] ∧
      body.«to» = [] := by
  obtain ⟨body, hstep, hbto⟩ := stepTool_send_exists root net up st tc hname
  have hw : (withTo up tc.args).«to» = some [] := by
    cases hargs : tc.args.«to» with
    | none =>
      cases hu : up with
      | none => simp [withTo, jsOr, hargs]
      | some u =>
        rw [hu] at hup
        simp only [falsy] at hup
        simp [withTo, jsOr, hargs, hup]
    | some s =>
      rw [hargs] at hto
      simp only [falsy] at hto
      cases hu : up with
      | none => simp [withTo, jsOr, hargs, hto]
      | some u =>
        rw [hu] at hup
        simp only [falsy] at hup
        simp [withTo, jsOr, hargs, hto, hup]
  refine ⟨rfl, body, ?_, ?_⟩
  · rw [hstep]
    exact sendStep_posts root net st tc.id body
  · rw [hbto, hw]
    rfl

/-- C10 witness: a `send_whatsapp_text` call with `to` absent on a request
without `user_phone` still posts, addressed to the empty string. -/
theorem C10_witness :
    normPhone [] = [] ∧
    ∃ body : OutboundBody,
      (stepTool (str "r") (fun _ => FetchOutcome.resp 200 (str "OK") (str "")) none initLoop
          ⟨str "1", str "send_whatsapp_text", emptyArgs⟩).1.posts =
        initLoop.posts ++ [Post.sendWhatsapp (sendWhatsappUrl (str "r")) body] ∧
      body.«to» = [] :=
  C10_empty_destination (str "r") (fun _ => FetchOutcome.resp 200 (str "OK") (str ""))
    none initLoop ⟨str "1", str "send_whatsapp_text", emptyArgs⟩
    (by decide) rfl rfl

/-- C4: a request missing `conversationId` or `newMessage` (or supplying
either empty) yields the 400 validation response, and the pipeline
attempts no history-store write (and no outbound POST). -/
theorem C4_validation_no_write (root : Str) (o : Oracles) (req : ReqBody)
    (h : falsy req.conversationId = true ∨ falsy req.newMessage = true) :
    (handleFetch root o (str "POST") (Except.ok req)).status = 400 ∧
    (handleFetch root o (str "POST") (Except.ok req)).inserts = [] ∧
    (handleFetch root o (str "POST") (Except.ok req)).posts = [] := by
  have hcond : (falsy req.conversationId || falsy req.newMessage) = true := by
    rcases h with h | h <;> simp [h]
  simp [handleFetch, hcond]

/-- C4 witness: a body with `newMessage` only (no `conversationId`) gets a
400 and no write is attempted. -/
theorem C4_witness :
    (handleFetch (str "r")
        ⟨none, Except.ok [], CompletionOutcome.ok ⟨some (str "x"), []⟩,
          fun _ => FetchOutcome.resp 200 (str "OK") (str ""),
          CompletionOutcome.ok ⟨some (str "x"), []⟩, none⟩
        (str "POST") (Except.ok ⟨none, some (str "hi"), none, none⟩)).status = 400 ∧
    (handleFetch (str "r")
        ⟨none, Except.ok [], CompletionOutcome.ok ⟨some (str "x"), []⟩,
          fun _ => FetchOutcome.resp 200 (str "OK") (str ""),
          CompletionOutcome.ok ⟨some (str "x"), []⟩, none⟩
        (str "POST") (Except.ok ⟨none, some (str "hi"), none, none⟩)).inserts = [] ∧
    (handleFetch (str "r")
        ⟨none, Except.ok [], CompletionOutcome.ok ⟨some (str "x"), []⟩,
          fun _ => FetchOutcome.resp 200 (str "OK") (str ""),
          CompletionOutcome.ok ⟨some (str "x"), []⟩, none⟩
        (str "POST") (Except.ok ⟨none, some (str "hi"), none, none⟩)).posts = [] :=
  C4_validation_no_write (str "r")
    ⟨none, Except.ok [], CompletionOutcome.ok ⟨some (str "x"), []⟩,
      fun _ => FetchOutcome.resp 200 (str "OK") (str ""),
      CompletionOutcome.ok ⟨some (str "x"), []⟩, none⟩
    ⟨none, some (str "hi"), none, none⟩ (Or.inl rfl)

/-- C3: when a completion-API call fails — the first call, or the
finalizing call after a tool loop that completed without an escaped
exception — the failure is caught, the reply becomes the fixed fallback
message, the pipeline still attempts to persist that fallback as the
assistant turn, and the envelope still reports success with HTTP 200. -/
theorem C3_completion_failure_fallback (root : Str) (o : Oracles) (req : ReqBody)
    (hcid : falsy req.conversationId = false) (hnm : falsy req.newMessage = false)
    (hins : o.insertUserErr = none) (hh : ∃ l, o.history = Except.ok l)
    (hfail : (∃ e, o.first = CompletionOutcome.exn e) ∨
      (∃ am e, o.first = CompletionOutcome.ok am ∧ am.tool_calls ≠ [] ∧
        (runToolLoop root o.net req.userPhone am.tool_calls initLoop).2 = none ∧
        o.final = CompletionOutcome.exn e)) :
    (handleFetch root o (str "POST") (Except.ok req)).status = 200 ∧
    (∃ m : Meta, (handleFetch root o (str "POST") (Except.ok req)).body =
      RespBody.json ⟨true, req.conversationId.getD [], fallbackMsg, m⟩) ∧
    (handleFetch root o (str "POST") (Except.ok req)).inserts =
      [⟨req.conversationId.getD [], str "user", req.newMessage.getD []⟩,
       ⟨req.conversationId.getD [], str "assistant", fallbackMsg⟩] := by
  obtain ⟨l, hl⟩ := hh
  have hcond : (falsy req.conversationId || falsy req.newMessage) = false := by
    simp [hcid, hnm]
  rcases hfail with ⟨e, hf⟩ | ⟨am, e, hf, htc, hrun, hfin⟩
  · refine ⟨?_, ⟨⟨l.length, 0, jsOr req.platform (str "unknown"),
      if falsy req.userPhone then none else req.userPhone⟩, ?_⟩, ?_⟩ <;>
      simp [handleFetch, hcond, hins, hl, hf, initLoop]
  · have hne : am.tool_calls.isEmpty = false := by
      cases htc' : am.tool_calls with
      | nil => exact absurd htc' htc
      | cons a t => rfl
    rcases hrun' : runToolLoop root o.net req.userPhone am.tool_calls initLoop with ⟨stf, ab⟩
    rw [hrun'] at hrun
    simp only at hrun
    subst hrun
    refine ⟨?_, ⟨⟨l.length, stf.executed, jsOr req.platform (str "unknown"),
      if falsy req.userPhone then none else req.userPhone⟩, ?_⟩, ?_⟩ <;>
      simp [handleFetch, hcond, hins, hl, hf, hne, hrun', hfin]

/-- C3 witness: a request whose first completion call throws still gets a
200 success envelope carrying the fallback text, and the fallback is the
assistant turn the pipeline attempts to persist. -/
theorem C3_witness :
    (handleFetch (str "r")
        ⟨none, Except.ok [], CompletionOutcome.exn (str "ECONNRESET"),
          fun _ => FetchOutcome.resp 200 (str "OK") (str ""),
          CompletionOutcome.ok ⟨some (str "x"), []⟩, none⟩
        (str "POST")
        (Except.ok ⟨some (str "c1"), some (str "hi"), none, none⟩)).status = 200 ∧
    (∃ m : Meta,
      (handleFetch (str "r")
          ⟨none, Except.ok [], CompletionOutcome.exn (str "ECONNRESET"),
            fun _ => FetchOutcome.resp 200 (str "OK") (str ""),
            CompletionOutcome.ok ⟨some (str "x"), []⟩, none⟩
          (str "POST")
          (Except.ok ⟨some (str "c1"), some (str "hi"), none, none⟩)).body =
        RespBody.json ⟨true, (some (str "c1")).getD [], fallbackMsg, m⟩) ∧
    (handleFetch (str "r")
        ⟨none, Except.ok [], CompletionOutcome.exn (str "ECONNRESET"),
          fun _ => FetchOutcome.resp 200 (str "OK") (str ""),
          CompletionOutcome.ok ⟨some (str "x"), []⟩, none⟩
        (str "POST")
        (Except.ok ⟨some (str "c1"), some (str "hi"), none, none⟩)).inserts =
      [⟨(some (str "c1")).getD [], str "user", (some (str "hi")).getD []⟩,
       ⟨(some (str "c1")).getD [], str "assistant", fallbackMsg⟩] :=
  C3_completion_failure_fallback (str "r")
    ⟨none, Except.ok [], CompletionOutcome.exn (str "ECONNRESET"),
      fun _ => FetchOutcome.resp 200 (str "OK") (str ""),
      CompletionOutcome.ok ⟨some (str "x"), []⟩, none⟩
    ⟨some (str "c1"), some (str "hi"), none, none⟩
    (by decide) (by decide) rfl ⟨[], rfl⟩ (Or.inl ⟨str "ECONNRESET", rfl⟩)

end Perso
